import Mathlib

/-!
Verification of the RSS-to-post bot pipeline of the zeno repository.

The JavaScript sources are shallowly embedded:
* JS strings are modeled as `List Char` (`Str`); `s.substring(0, n)` is
  `List.take n`, `+` is `++`, and JS falsiness of `""`/`null` is modeled by
  `jsOr` / `jsOrO`.
* Timestamps are modeled as `Int` milliseconds (JS `Date.getTime()`); an
  unparseable date string (`NaN` after `new Date(...)`) is `Option.none` in
  the inner option, a missing/falsy date field is `Option.none` in the outer
  option.
* External effects (Supabase queries, the OpenAI call, URL parsing) are
  modeled by explicit oracle parameters; database state (the dedup ledger
  and the posts table) is passed explicitly.
-/

namespace Zeno

/-- JS strings, modeled as lists of characters. -/
abbrev Str := List Char

/-- JS `a || b` for strings: the empty string is falsy. -/
def jsOr (a b : Str) : Str := if a = [] then b else a

/-- JS `a || b` where `a` may be `null`/`undefined` (modeled as `none`)
or an empty (falsy) string. -/
def jsOrO : Option Str → Str → Str
  | some a, b => if a = [] then b else a
  | none, b => b

/-!
## Feed fetcher (`bots/lib/rss-fetcher.js`)

`filterItemsByDate` inspects the raw feed item's date fields
`item.pubDate || item.published || item.isoDate`, parses the first truthy
one with `new Date(...)`, rejects the item when there is no truthy field or
the parse yields `NaN`, and otherwise keeps the item iff
`itemDate >= cutoffTime` with `cutoffTime = new Date(Date.now() - minutesAgo*60*1000)`.
-/

/-- A raw feed item, restricted to the date fields `filterItemsByDate` reads.
Outer `Option`: the field is present and truthy; inner `Option`: the result
of `new Date(field)` (`none` models an invalid date / `NaN`). -/
structure RawItem where
  pubDate : Option (Option Int)
  published : Option (Option Int)
  isoDate : Option (Option Int)
deriving DecidableEq

/-- `item.pubDate || item.published || item.isoDate`: the first truthy date
field (a present-but-unparseable field is truthy and stops the chain). -/
def rawItemDate (it : RawItem) : Option (Option Int) :=
  it.pubDate <|> it.published <|> it.isoDate

/-- The per-item predicate of `filterItemsByDate`: the item has a truthy
date field, it parses, and `itemDate >= cutoffTime`. -/
def itemQualifies (now minutesAgo : Int) (it : RawItem) : Bool :=
  match rawItemDate it with
  | none => false
  | some none => false
  | some (some t) => now - minutesAgo * 60 * 1000 ≤ t

/-- `filterItemsByDate(items, minutesAgo)`, with `now` (the moment of the
call, `Date.now()`) made explicit. -/
def filterItemsByDate (items : List RawItem) (now : Int) (minutesAgo : Int := 60) :
    List RawItem :=
  items.filter (itemQualifies now minutesAgo)

/-!
## Deduplication ledger (`bots/lib/deduplicator.js` and
`scripts/create-profiles-table.sql`)
-/

/-- A normalized feed item, restricted to the fields the deduplicator,
summarizer and post creator read. -/
structure Item where
  guid : Str
  link : Str
  title : Str
  content : Str
  feedUrl : Str
deriving DecidableEq

/-- One row of the `processed_rss_items` table (the dedup ledger).
The table has `UNIQUE(item_guid, bot_id)` and `UNIQUE(item_link, bot_id)`.
The `processed_at` timestamp is omitted (no claim reads it). -/
structure LedgerRecord where
  rss_url : Str
  item_guid : Str
  item_link : Str
  item_title : Str
  bot_id : Str
  bot_username : Str
  created_post_id : Option Nat
deriving DecidableEq

abbrev Ledger := List LedgerRecord

/-- The guid existence query of `isItemProcessed`:
`eq('bot_id', botId).eq('item_guid', item.guid)` finds a row. -/
def guidMatch (L : Ledger) (botId g : Str) : Bool :=
  L.any fun r => decide (r.bot_id = botId ∧ r.item_guid = g)

/-- The link existence query of `isItemProcessed`:
`eq('bot_id', botId).eq('item_link', item.link)` finds a row. -/
def linkMatch (L : Ledger) (botId l : Str) : Bool :=
  L.any fun r => decide (r.bot_id = botId ∧ r.item_link = l)

/-- `isItemProcessed(supabase, botId, item)` in the error-free case: the
guid query runs first; the link query is consulted only when it found no
row. -/
def isItemProcessed (L : Ledger) (botId : Str) (item : Item) : Bool :=
  if guidMatch L botId item.guid then true
  else linkMatch L botId item.link

/-- Outcome of one Supabase `maybeSingle()` existence query: a row was
found, no row was found, the call returned an error object (`data` is then
null), or the call threw. -/
inductive QueryOutcome
  | found
  | notFound
  | errReturned
  | thrown
deriving DecidableEq

/-- `isItemProcessed` with the outcomes of its two queries made explicit.
A thrown query aborts the `try` block and the `catch` returns `false`; a
returned error object is only logged and leaves `data` null, so the code
falls through to the link check / to `return false`. -/
def isItemProcessedO (gq lq : QueryOutcome) : Bool :=
  match gq with
  | .thrown => false
  | .found => true
  | .notFound | .errReturned =>
    match lq with
    | .thrown => false
    | .found => true
    | .notFound | .errReturned => false

/-- The ledger row `markItemAsProcessed` inserts for an item. -/
def recordOf (botId botUsername : Str) (item : Item) (postId : Option Nat) :
    LedgerRecord :=
  { rss_url := item.feedUrl
    item_guid := item.guid
    item_link := item.link
    item_title := item.title
    bot_id := botId
    bot_username := botUsername
    created_post_id := postId }

/-- Whether inserting `r` violates `UNIQUE(item_guid, bot_id)` or
`UNIQUE(item_link, bot_id)` (PostgreSQL error code 23505). -/
def hasUniqueViolation (L : Ledger) (r : LedgerRecord) : Bool :=
  L.any fun x => decide ((x.item_guid = r.item_guid ∧ x.bot_id = r.bot_id) ∨
    (x.item_link = r.item_link ∧ x.bot_id = r.bot_id))

/-- `markItemAsProcessed(supabase, botId, botUsername, item, postId)`.
A unique violation (23505) is reported as success with the ledger
unchanged; `dbErr` models any other insert failure, reported as `false`
with the ledger unchanged; otherwise the row is inserted and the call
succeeds. The function never throws to its caller (the `catch` returns
`false`). -/
def markItemAsProcessed (dbErr : Bool) (L : Ledger) (botId botUsername : Str)
    (item : Item) (postId : Option Nat) : Bool × Ledger :=
  let r := recordOf botId botUsername item postId
  if hasUniqueViolation L r then (true, L)
  else if dbErr then (false, L)
  else (true, L ++ [r])

/-- `filterUnprocessedItems` with the per-item check abstracted: a null or
empty input yields `[]`; otherwise each item is kept iff its check says
not processed, in input order. -/
def filterUnprocessedItemsWith (proc : Item → Bool) : Option (List Item) → List Item
  | none => []
  | some items => items.filter fun it => !(proc it)

/-- `filterUnprocessedItems(supabase, botId, items)`: the check is
`isItemProcessed` against the ledger. -/
def filterUnprocessedItems (L : Ledger) (botId : Str) (items : Option (List Item)) :
    List Item :=
  filterUnprocessedItemsWith (isItemProcessed L botId) items

/-! ### Claim C2 -/

/-- A raw item whose parsed date is exactly `minutesAgo` minutes before a
fetch at time 0, i.e. age exactly 60m00s for the default window. -/
def boundaryItem : RawItem := ⟨some (some (-3600000)), none, none⟩

/-- C2, counterexample: with window = 60 minutes and a fetch at `now = 0`,
an item whose age is exactly 60m00s is retained by `filterItemsByDate`
(the comparison `itemDate >= cutoffTime` is inclusive), contradicting the
claim that it must be excluded. -/
theorem c2_boundary_item_included :
    filterItemsByDate [boundaryItem] 0 60 = [boundaryItem] := by decide

/-- C2 (amended): `filterItemsByDate` retains an item iff it has a truthy,
parseable date field and its timestamp `t` satisfies
`now - window ≤ t` — the boundary is inclusive, so with window = 60
minutes an item aged exactly 60m00s is included, one aged 59m59s is
included, one aged 60m01s is excluded, and items lacking a usable date are
excluded. -/
theorem c2_date_filter_amended :
    (∀ (items : List RawItem) (now w : Int) (it : RawItem),
      it ∈ filterItemsByDate items now w ↔
        it ∈ items ∧ itemQualifies now w it = true) ∧
    (∀ (it : RawItem) (now w : Int),
      itemQualifies now w it = true ↔
        ∃ t, rawItemDate it = some (some t) ∧ now - w * 60 * 1000 ≤ t) ∧
    filterItemsByDate [boundaryItem] 0 60 = [boundaryItem] ∧
    filterItemsByDate [(⟨some (some (-3599000)), none, none⟩ : RawItem)] 0 60 =
      [⟨some (some (-3599000)), none, none⟩] ∧
    filterItemsByDate [(⟨some (some (-3601000)), none, none⟩ : RawItem)] 0 60 = [] ∧
    filterItemsByDate [(⟨none, none, none⟩ : RawItem)] 0 60 = [] ∧
    filterItemsByDate [(⟨some none, some (some 0), none⟩ : RawItem)] 0 60 = [] := by
  refine ⟨?_, ?_, by decide, by decide, by decide, by decide, by decide⟩
  · intro items now w it
    simp [filterItemsByDate, List.mem_filter]
  · intro it now w
    unfold itemQualifies
    match h : rawItemDate it with
    | none => simp
    | some none => simp
    | some (some t) =>
      simp only [decide_eq_true_eq]
      constructor
      · intro ht
        exact ⟨t, rfl, ht⟩
      · rintro ⟨t2, ht2, hle⟩
        cases ht2
        exact hle

/-! ### Claim C10 -/

/-- C10: for every ledger, bot id and input, `filterUnprocessedItems`
returns an order-preserving subsequence of its input (a `List.Sublist`),
and it returns the empty list when the input is null or empty. -/
theorem c10_filterUnprocessedItems_sublist :
    (∀ (L : Ledger) (botId : Str) (items : List Item),
      (filterUnprocessedItems L botId (some items)).Sublist items) ∧
    (∀ (L : Ledger) (botId : Str), filterUnprocessedItems L botId none = []) ∧
    (∀ (L : Ledger) (botId : Str),
      filterUnprocessedItems L botId (some []) = []) :=
  ⟨fun _ _ _ => List.filter_sublist _, fun _ _ => rfl, fun _ _ => rfl⟩

/-!
## Content summarizer (`bots/lib/summarizer.js`)

`generateSummary` builds a prompt from the item (title, a 2000-character
content excerpt, the link) and issues one OpenAI call; the prompt only
feeds that external call, which is modeled by the oracle `apiResult`
(`none`: the call threw or returned no content; `some raw`: the returned
message content). The response is trimmed and an empty result throws,
which the surrounding `catch` turns into the fallback
`(item.title + " - " + item.link).substring(0, 280)`.
-/

/-- JS `String.prototype.trim` whitespace (restricted to the ASCII
whitespace characters that occur here). -/
def jsWhitespace (c : Char) : Bool :=
  decide (c = ' ' ∨ c = '\t' ∨ c = '\n' ∨ c = '\r')

/-- JS `s.trim()`. -/
def trimStr (s : Str) : Str :=
  ((s.dropWhile jsWhitespace).reverse.dropWhile jsWhitespace).reverse

/-- The fallback summary of `generateSummary`:
`(item.title + " - " + item.link).substring(0, 280)`. -/
def fallbackSummary (item : Item) : Str :=
  (item.title ++ " - ".data ++ item.link).take 280

/-- `generateSummary(openai, item, customPrompt, model)` with the external
call abstracted by its outcome: an error or an empty trimmed response
yields the fallback, otherwise the trimmed response is returned. -/
def generateSummary (apiResult : Option Str) (item : Item) : Str :=
  match apiResult with
  | none => fallbackSummary item
  | some raw =>
    let s := trimStr raw
    if s = [] then fallbackSummary item else s

/-! ### Claim C6 -/

/-- An item whose title is 280 characters of `A`. -/
def c6longItem : Item :=
  { guid := "g".data, link := "http://x".data, title := List.replicate 280 'A'
    content := "c".data, feedUrl := "f".data }

set_option maxRecDepth 8000 in
/-- C6, counterexample: for an item with a 280-character title, the
fallback produced on a summarization error is the truncated title alone
and does not contain the item's link, contradicting the claim that the
fallback contains both the title and the link. -/
theorem c6_fallback_misses_link :
    ¬ List.IsInfix ("http://x".data) (generateSummary none c6longItem) := by
  intro h
  have hfb : generateSummary none c6longItem = List.replicate 280 'A' := by decide
  have hm : 'h' ∈ generateSummary none c6longItem := h.subset (by decide)
  rw [hfb] at hm
  have : 'h' = 'A' := List.eq_of_mem_replicate hm
  exact absurd this (by decide)

/-- C6 (amended): on any error from the external call (including an empty
trimmed response), `generateSummary` returns the deterministic fallback
`(title + " - " + link).substring(0, 280)`; this fallback always has at
most 280 characters, and it contains both the item's title and its link
whenever their combined length with the 3-character separator is at most
280 (for longer titles the link, or part of the title, is truncated
away). -/
theorem c6_fallback_amended :
    (∀ item : Item, generateSummary none item = fallbackSummary item) ∧
    (∀ (raw : Str) (item : Item), trimStr raw = [] →
      generateSummary (some raw) item = fallbackSummary item) ∧
    (∀ item : Item, (fallbackSummary item).length ≤ 280) ∧
    (∀ item : Item, item.title.length + 3 + item.link.length ≤ 280 →
      List.IsInfix item.title (fallbackSummary item) ∧
      List.IsInfix item.link (fallbackSummary item)) := by
  refine ⟨fun _ => rfl, ?_, ?_, ?_⟩
  · intro raw item h
    simp [generateSummary, h]
  · intro item
    simp [fallbackSummary]
  · intro item h
    have hlen : (item.title ++ " - ".data ++ item.link).length ≤ 280 := by
      simp [List.length_append]
      omega
    have htake : fallbackSummary item = item.title ++ " - ".data ++ item.link := by
      simpa [fallbackSummary] using List.take_of_length_le hlen
    constructor
    · rw [htake]
      exact ⟨[], " - ".data ++ item.link, by simp⟩
    · rw [htake]
      exact ⟨item.title ++ " - ".data, [], by simp⟩

/-- A short item used to witness the amended C6 theorem. -/
def c6shortItem : Item :=
  { guid := "g".data, link := "http://x".data, title := "T".data
    content := "c".data, feedUrl := "f".data }

/-- C6, witness for the amended theorem: a whitespace-only response falls
back, and for a short item the fallback contains both title and link. -/
theorem c6_fallback_amended_witness :
    generateSummary (some "  ".data) c6shortItem = fallbackSummary c6shortItem ∧
    List.IsInfix ("T".data) (fallbackSummary c6shortItem) ∧
    List.IsInfix ("http://x".data) (fallbackSummary c6shortItem) := by
  refine ⟨c6_fallback_amended.2.1 "  ".data c6shortItem (by decide), ?_, ?_⟩
  · exact (c6_fallback_amended.2.2.2 c6shortItem (by decide)).1
  · exact (c6_fallback_amended.2.2.2 c6shortItem (by decide)).2

/-! ### Claim C4 -/

/-- Number of ledger rows for a given (bot, guid) pair. -/
def countGuidRows (L : Ledger) (botId g : Str) : Nat :=
  (L.filter fun r => decide (r.bot_id = botId ∧ r.item_guid = g)).length

/-- C4: `markItemAsProcessed` is idempotent — invoking it twice for the
same (bot, GUID) leaves the ledger exactly as after the first call, the
second call reports success (the uniqueness violation is treated as
success, not an error), and starting from a ledger with no row for the
(bot, GUID) the two calls leave at most one such row. The embedding is a
total function, so neither call raises to the caller. -/
theorem c4_markItemAsProcessed_idempotent
    (L : Ledger) (botId botU : Str) (item : Item) (postId : Option Nat) :
    (markItemAsProcessed false
        (markItemAsProcessed false L botId botU item postId).2
        botId botU item postId).1 = true ∧
    (markItemAsProcessed false
        (markItemAsProcessed false L botId botU item postId).2
        botId botU item postId).2 =
      (markItemAsProcessed false L botId botU item postId).2 ∧
    (countGuidRows L botId item.guid = 0 →
      countGuidRows
        (markItemAsProcessed false
          (markItemAsProcessed false L botId botU item postId).2
          botId botU item postId).2 botId item.guid ≤ 1) := by
  by_cases h : hasUniqueViolation L (recordOf botId botU item postId) = true
  · have e1 : markItemAsProcessed false L botId botU item postId = (true, L) := by
      simp [markItemAsProcessed, h]
    have key : markItemAsProcessed false
        (markItemAsProcessed false L botId botU item postId).2
        botId botU item postId = (true, L) := by
      rw [e1]
      exact e1
    refine ⟨?_, ?_, ?_⟩
    · rw [key]
    · rw [key, e1]
    · intro h0
      rw [key]
      show countGuidRows L botId item.guid ≤ 1
      omega
  · have e1 : markItemAsProcessed false L botId botU item postId =
        (true, L ++ [recordOf botId botU item postId]) := by
      simp [markItemAsProcessed, h]
    have h2 : hasUniqueViolation (L ++ [recordOf botId botU item postId])
        (recordOf botId botU item postId) = true := by
      simp [hasUniqueViolation, List.any_append]
    have e2 : markItemAsProcessed false (L ++ [recordOf botId botU item postId])
        botId botU item postId = (true, L ++ [recordOf botId botU item postId]) := by
      simp [markItemAsProcessed, h2]
    have key : markItemAsProcessed false
        (markItemAsProcessed false L botId botU item postId).2
        botId botU item postId =
        (true, L ++ [recordOf botId botU item postId]) := by
      rw [e1]
      exact e2
    refine ⟨?_, ?_, ?_⟩
    · rw [key]
    · rw [key, e1]
    · intro h0
      rw [key]
      show countGuidRows (L ++ [recordOf botId botU item postId]) botId item.guid ≤ 1
      simp only [countGuidRows, List.filter_append, List.length_append] at h0 ⊢
      have hone :
          (List.filter (fun r => decide (r.bot_id = botId ∧ r.item_guid = item.guid))
            [recordOf botId botU item postId]).length ≤ 1 := by
        simp [recordOf]
      omega

/-- C4, witness: two marks of the same item on an empty ledger report
success and leave a single row. -/
theorem c4_markItemAsProcessed_idempotent_witness :
    (markItemAsProcessed false
        (markItemAsProcessed false []
          "b".data "bu".data
          { guid := "g".data, link := "l".data, title := "t".data
            content := "c".data, feedUrl := "f".data } (some 1)).2
        "b".data "bu".data
        { guid := "g".data, link := "l".data, title := "t".data
          content := "c".data, feedUrl := "f".data } (some 1)).1 = true ∧
    countGuidRows
      (markItemAsProcessed false
        (markItemAsProcessed false []
          "b".data "bu".data
          { guid := "g".data, link := "l".data, title := "t".data
            content := "c".data, feedUrl := "f".data } (some 1)).2
        "b".data "bu".data
        { guid := "g".data, link := "l".data, title := "t".data
          content := "c".data, feedUrl := "f".data } (some 1)).2
      "b".data "g".data ≤ 1 := by
  have h := c4_markItemAsProcessed_idempotent []
    "b".data "bu".data
    { guid := "g".data, link := "l".data, title := "t".data
      content := "c".data, feedUrl := "f".data } (some 1)
  exact ⟨h.1, h.2.2 (by decide)⟩

/-! ### Claim C5 -/

/-- C5: dedup filtering is correct for both keys. A ledger row for the
same bot sharing the item's GUID (the link may differ arbitrarily) makes
`isItemProcessed` true and the item is dropped by
`filterUnprocessedItems`; a row sharing the item's link does likewise; and
the GUID query is decisive first — when it finds a row the result is true
whatever the link query would do, while the link query decides the result
only when the GUID query found no row. -/
theorem c5_dedup_guid_and_link :
    (∀ (L : Ledger) (botId : Str) (item : Item) (r : LedgerRecord),
      r ∈ L → r.bot_id = botId → r.item_guid = item.guid →
      isItemProcessed L botId item = true ∧
      ∀ items, item ∉ filterUnprocessedItems L botId (some items)) ∧
    (∀ (L : Ledger) (botId : Str) (item : Item) (r : LedgerRecord),
      r ∈ L → r.bot_id = botId → r.item_link = item.link →
      isItemProcessed L botId item = true ∧
      ∀ items, item ∉ filterUnprocessedItems L botId (some items)) ∧
    (∀ lq lq2 : QueryOutcome,
      isItemProcessedO .found lq = isItemProcessedO .found lq2) ∧
    (∀ lq : QueryOutcome, isItemProcessedO .found lq = true) ∧
    isItemProcessedO .notFound .found = true := by
  have hdrop : ∀ (L : Ledger) (botId : Str) (item : Item),
      isItemProcessed L botId item = true →
      ∀ items, item ∉ filterUnprocessedItems L botId (some items) := by
    intro L botId item hproc items hmem
    simp only [filterUnprocessedItems, filterUnprocessedItemsWith,
      List.mem_filter, hproc] at hmem
    exact absurd hmem.2 (by simp)
  refine ⟨?_, ?_, fun _ _ => rfl, fun _ => rfl, rfl⟩
  · intro L botId item r hr hb hg
    have hmatch : guidMatch L botId item.guid = true := by
      simp only [guidMatch, List.any_eq_true, decide_eq_true_eq]
      exact ⟨r, hr, hb, hg⟩
    have hproc : isItemProcessed L botId item = true := by
      simp [isItemProcessed, hmatch]
    exact ⟨hproc, hdrop L botId item hproc⟩
  · intro L botId item r hr hb hl
    have hmatch : linkMatch L botId item.link = true := by
      simp only [linkMatch, List.any_eq_true, decide_eq_true_eq]
      exact ⟨r, hr, hb, hl⟩
    have hproc : isItemProcessed L botId item = true := by
      by_cases hg : guidMatch L botId item.guid = true
      · simp [isItemProcessed, hg]
      · simp [isItemProcessed, hg, hmatch]
    exact ⟨hproc, hdrop L botId item hproc⟩

/-- Items and ledger rows used to witness C5. -/
def c5itemGuidOld : Item :=
  ⟨"g".data, "l1".data, "t".data, "c".data, "f".data⟩

def c5itemGuidNew : Item :=
  ⟨"g".data, "l2".data, "t".data, "c".data, "f".data⟩

def c5itemLinkOld : Item :=
  ⟨"g1".data, "l".data, "t".data, "c".data, "f".data⟩

def c5itemLinkNew : Item :=
  ⟨"g2".data, "l".data, "t".data, "c".data, "f".data⟩

/-- C5, witness: an item sharing only its GUID (different link) with a
ledger row is dropped, and an item sharing only its link is dropped. -/
theorem c5_dedup_guid_and_link_witness :
    (isItemProcessed [recordOf "b".data "bu".data c5itemGuidOld none]
      "b".data c5itemGuidNew = true) ∧
    (isItemProcessed [recordOf "b".data "bu".data c5itemLinkOld none]
      "b".data c5itemLinkNew = true) := by
  constructor
  · exact (c5_dedup_guid_and_link.1
      [recordOf "b".data "bu".data c5itemGuidOld none] "b".data c5itemGuidNew
      (recordOf "b".data "bu".data c5itemGuidOld none)
      (List.mem_singleton_self _) rfl rfl).1
  · exact (c5_dedup_guid_and_link.2.1
      [recordOf "b".data "bu".data c5itemLinkOld none] "b".data c5itemLinkNew
      (recordOf "b".data "bu".data c5itemLinkOld none)
      (List.mem_singleton_self _) rfl rfl).1

/-! ### Claim C7 -/

/-- C7: when an item's existence check cannot find a row — in particular
when both underlying queries error or throw — `isItemProcessed` returns
false, and the item is therefore retained by the dedup filter rather than
silently dropped. -/
theorem c7_lookup_error_not_processed
    (gq lq : Item → QueryOutcome) (item : Item)
    (hg : gq item ≠ .found) (hl : lq item ≠ .found) :
    isItemProcessedO (gq item) (lq item) = false ∧
    ∀ items, item ∈ items →
      item ∈ filterUnprocessedItemsWith
        (fun i => isItemProcessedO (gq i) (lq i)) (some items) := by
  have hfalse : isItemProcessedO (gq item) (lq item) = false := by
    cases h1 : gq item <;> cases h2 : lq item <;>
      first
        | rfl
        | exact absurd h1 hg
        | exact absurd h2 hl
  refine ⟨hfalse, ?_⟩
  intro items hmem
  simp [filterUnprocessedItemsWith, List.mem_filter, hmem, hfalse]

/-- C7, witness: a thrown guid query and an error-returning link query
leave a concrete item unprocessed and retained by the filter. -/
theorem c7_lookup_error_not_processed_witness :
    isItemProcessedO .thrown .errReturned = false ∧
    ({ guid := "g".data, link := "l".data, title := "t".data
       content := "c".data, feedUrl := "f".data } : Item) ∈
      filterUnprocessedItemsWith
        (fun _ => isItemProcessedO .thrown .errReturned)
        (some [{ guid := "g".data, link := "l".data, title := "t".data
                 content := "c".data, feedUrl := "f".data }]) := by
  have h := c7_lookup_error_not_processed
    (fun _ => QueryOutcome.thrown) (fun _ => QueryOutcome.errReturned)
    { guid := "g".data, link := "l".data, title := "t".data
      content := "c".data, feedUrl := "f".data }
    (by decide) (by decide)
  exact ⟨h.1, h.2 _ (by simp)⟩

/-!
## Post creator (`bots/lib/post-creator.js`)

`createPost` writes one row to the `posts` table and returns the created
row, or `null` on any insert failure (it catches everything); the insert
outcome is modeled by the boolean `ok`. `createPostsBatch` slices the
batch to `maxPosts`, returns `[]` without writes in dry-run mode, and
otherwise posts the items one at a time, skipping items whose write
failed. Timestamps (`created_at`/`updated_at`) and the inter-item sleep
are omitted; `extractDomainName`'s URL-library parsing is modeled by the
oracle `domainOf`.
-/

/-- A bot configuration (`bots/config/bot-feeds.js` entry), restricted to
the fields the pipeline reads. -/
structure BotConfig where
  id : Str
  name : Str
  username : Str
  user_id : Str
  feeds : List Str
deriving DecidableEq

/-- One row of the `posts` table as written by `createPost`. -/
structure PostRow where
  id : Nat
  content : Str
  content_type : Str
  rss_original_content : Str
  rss_ai_summary : Option Str
  rss_source_url : Option Str
  rss_source_name : Option Str
  user_id : Str
  user_name : Str
deriving DecidableEq

/-- The shared Supabase state the pipeline mutates: the dedup ledger, the
posts table, and the id the next successful insert receives. -/
structure Store where
  ledger : Ledger
  posts : List PostRow
  nextId : Nat
deriving DecidableEq

/-- `createPost(supabase, botConfig, content, sourceUrl, sourceName,
originalContent, aiSummary)`: prefixes a source label when the source name
is truthy, then inserts; `ok` is the insert outcome (`false` models any
error, returned as `null` with no row written). -/
def createPost (ok : Bool) (cfg : BotConfig) (content : Str)
    (sourceUrl : Option Str) (sourceName : Option Str)
    (originalContent : Str) (aiSummary : Option Str) (store : Store) :
    Option PostRow × Store :=
  let formattedContent :=
    match sourceName with
    | some n => if n = [] then content else "📰 ".data ++ n ++ "\n\n".data ++ content
    | none => content
  if ok then
    let row : PostRow :=
      { id := store.nextId
        content := formattedContent
        content_type := "rss_bot".data
        rss_original_content := originalContent
        rss_ai_summary := aiSummary
        rss_source_url := sourceUrl
        rss_source_name := sourceName
        user_id := cfg.user_id
        user_name := cfg.name }
    (some row, { store with posts := store.posts ++ [row], nextId := store.nextId + 1 })
  else (none, store)

/-- An item as it flows through the orchestrator after step 3: the
normalized item spread together with the attached `feedTitle` (absent in
combined mode), the `aiSummary` placeholder (null while the summarizer is
disabled) and `originalContent`. -/
structure PipelineItem where
  item : Item
  feedTitle : Option Str
  aiSummary : Option Str
  originalContent : Str
deriving DecidableEq

/-- `item.aiSummary || item.originalContent || item.content || item.title`,
the display content chosen by `createPostsBatch`. -/
def displayContent (p : PipelineItem) : Str :=
  jsOrO p.aiSummary (jsOr p.originalContent (jsOr p.item.content p.item.title))

/-- The posting loop of `createPostsBatch`: one `createPost` per item, in
order; a `null` result is skipped and the loop continues. -/
def createPostsLoop (writeOk : Item → Bool) (domainOf : Str → Str)
    (cfg : BotConfig) : List PipelineItem → Store →
    List (PostRow × PipelineItem) × Store
  | [], store => ([], store)
  | p :: rest, store =>
    let sourceName := jsOrO p.feedTitle (domainOf p.item.feedUrl)
    let created := createPost (writeOk p.item) cfg (displayContent p)
      (some p.item.link) (some sourceName)
      (jsOr p.originalContent (jsOr p.item.content p.item.title))
      p.aiSummary store
    match created.1 with
    | some row =>
      let tail := createPostsLoop writeOk domainOf cfg rest created.2
      ((row, p) :: tail.1, tail.2)
    | none => createPostsLoop writeOk domainOf cfg rest created.2

/-- `createPostsBatch(supabase, botConfig, items, maxPosts, dryRun)`. -/
def createPostsBatch (writeOk : Item → Bool) (domainOf : Str → Str)
    (cfg : BotConfig) (items : List PipelineItem) (maxPosts : Nat)
    (dryRun : Bool) (store : Store) : List (PostRow × PipelineItem) × Store :=
  if items = [] then ([], store)
  else
    let itemsToPost := items.take maxPosts
    if dryRun then ([], store)
    else createPostsLoop writeOk domainOf cfg itemsToPost store

/-!
## Bot orchestrator (`bots/lib/bot-runner.js`, current version)

`runBot` is embedded as a total function over an explicit environment:
`profileExists` is the outcome of `verifyBotProfile`; the two fetch entry
points (`fetchItemsForBotSeparately`, whose body lives in
`bots/lib/rss-fetcher.js`, and `fetchItemsForBot`) are modeled by their
results, with `Except.error` modeling a rejected promise whose message the
orchestrator's `catch` records; `writeOk` and `markErr` are the per-item
insert outcomes; `domainOf` models `extractDomainName`'s URL parsing;
`elapsed` is the wall-clock duration the `finally` block records. The
`try`/`catch`/`finally` of the source becomes the branch structure of the
embedding, so the embedding never throws by construction.
-/

/-- One entry of the list `fetchItemsForBotSeparately` resolves to: a feed
with its url, its (possibly missing) title, and its recent items. -/
structure FeedResult where
  feedUrl : Str
  feedTitle : Option Str
  items : List Item
deriving DecidableEq

/-- The options `runBot` destructures. `maxPostsPerFeed` is accepted (with
default 2) exactly as in the source; note the source never reads it
again. -/
structure RunOptions where
  fetchWindowMinutes : Nat
  maxPostsPerRun : Nat
  maxPostsPerFeed : Nat
  processFeedsSeparately : Bool
  dryRun : Bool
deriving DecidableEq

/-- The environment of one `runBot` invocation. -/
structure RunEnv where
  profileExists : Bool
  fetchSeparate : Except Str (List FeedResult)
  fetchCombined : Except Str (List Item)
  domainOf : Str → Str
  writeOk : Item → Bool
  markErr : Item → Bool
  elapsed : Nat

/-- The structured results object `runBot` builds and returns. -/
structure RunResults where
  botId : Str
  botName : Str
  success : Bool
  itemsFetched : Nat
  itemsNew : Nat
  itemsSummarized : Nat
  postsCreated : Nat
  feedsProcessed : Nat
  errors : List Str
  duration : Nat
deriving DecidableEq

/-- The message of the error `runBot` throws when the bot profile is
missing. -/
def profileNotFoundMsg (cfg : BotConfig) : Str :=
  "Bot profile not found: ".data ++ cfg.user_id ++
    ". Run scripts/create-bot-profiles.sql first.".data

/-- The per-feed loop of `runBot` in per-source mode: for each feed,
count its items as fetched, dedup-filter them against the ledger, count
the survivors as new, attach the source title and the summary
placeholders, and concatenate. Returns
(itemsFetched, itemsNew, itemsToProcess). No per-feed cap is applied. -/
def collectFeedItems (L : Ledger) (botId : Str) (domainOf : Str → Str) :
    List FeedResult → Nat × Nat × List PipelineItem
  | [] => (0, 0, [])
  | f :: rest =>
    let newItems := filterUnprocessedItems L botId (some f.items)
    let withSource : List PipelineItem := newItems.map fun it =>
      { item := it
        feedTitle := some (jsOrO f.feedTitle (domainOf f.feedUrl))
        aiSummary := none
        originalContent := jsOr it.content it.title }
    let tail := collectFeedItems L botId domainOf rest
    (f.items.length + tail.1, newItems.length + tail.2.1, withSource ++ tail.2.2)

/-- The recording loop of `runBot` (step 6): every created post's item is
marked processed with the created post's id attached. -/
def markCreatedPosts (markErr : Item → Bool) (cfg : BotConfig) :
    List (PostRow × PipelineItem) → Store → Store
  | [], store => store
  | (row, p) :: rest, store =>
    let res := markItemAsProcessed (markErr p.item) store.ledger
      cfg.id cfg.username p.item (some row.id)
    markCreatedPosts markErr cfg rest { store with ledger := res.2 }

/-- Steps 4 to 6 of `runBot`, shared by both fetch modes: the summarizer
is disabled (items pass through, `itemsSummarized` stays 0), posts are
created under the overall cap, and outside dry-run every created post's
item is recorded. -/
def runBotTail (cfg : BotConfig) (opts : RunOptions) (env : RunEnv)
    (base : RunResults) (itemsToProcess : List PipelineItem) (store : Store) :
    RunResults × Store :=
  let created := createPostsBatch env.writeOk env.domainOf cfg itemsToProcess
    opts.maxPostsPerRun opts.dryRun store
  let store2 := if opts.dryRun then created.2
    else markCreatedPosts env.markErr cfg created.1 created.2
  ({ base with success := true, postsCreated := created.1.length }, store2)

/-- `runBot(supabase, openai, botConfig, options)`, current version. -/
def runBot (cfg : BotConfig) (opts : RunOptions) (env : RunEnv)
    (store : Store) : RunResults × Store :=
  let base : RunResults :=
    { botId := cfg.id, botName := cfg.name, success := false
      itemsFetched := 0, itemsNew := 0, itemsSummarized := 0
      postsCreated := 0, feedsProcessed := 0, errors := []
      duration := env.elapsed }
  if env.profileExists = false then
    ({ base with errors := [profileNotFoundMsg cfg] }, store)
  else if opts.processFeedsSeparately then
    match env.fetchSeparate with
    | Except.error e => ({ base with errors := [e] }, store)
    | Except.ok separatedFeeds =>
      if separatedFeeds.isEmpty then ({ base with success := true }, store)
      else
        let collected := collectFeedItems store.ledger cfg.id env.domainOf
          separatedFeeds
        let base1 := { base with feedsProcessed := separatedFeeds.length
                                 itemsFetched := collected.1
                                 itemsNew := collected.2.1 }
        if collected.2.2.isEmpty then ({ base1 with success := true }, store)
        else runBotTail cfg opts env base1 collected.2.2 store
  else
    match env.fetchCombined with
    | Except.error e => ({ base with errors := [e] }, store)
    | Except.ok items =>
      let base1 := { base with itemsFetched := items.length }
      if items.isEmpty then ({ base1 with success := true }, store)
      else
        let newItems := filterUnprocessedItems store.ledger cfg.id (some items)
        let base2 := { base1 with itemsNew := newItems.length }
        if newItems.isEmpty then ({ base2 with success := true }, store)
        else
          let itemsToProcess : List PipelineItem := newItems.map fun it =>
            { item := it, feedTitle := none, aiSummary := none
              originalContent := jsOr it.content it.title }
          runBotTail cfg opts env base2 itemsToProcess store

/-- `runMultipleBots(supabase, openai, botConfigs, options)`: the bots run
sequentially, each against the store the previous runs left behind; the
per-bot `try`/`catch` is dead in the embedding because `runBot` is total,
so every bot contributes exactly one result. -/
def runMultipleBots (envf : BotConfig → RunEnv) (configs : List BotConfig)
    (opts : RunOptions) (store : Store) : List RunResults × Store :=
  match configs with
  | [] => ([], store)
  | cfg :: rest =>
    let first := runBot cfg opts (envf cfg) store
    let tail := runMultipleBots envf rest opts first.2
    (first.1 :: tail.1, tail.2)

/-! ### Helper lemmas about the posting loop and the recording loop -/

theorem createPostsLoop_map_snd (writeOk : Item → Bool) (domainOf : Str → Str)
    (cfg : BotConfig) (ps : List PipelineItem) (store : Store) :
    ((createPostsLoop writeOk domainOf cfg ps store).1.map Prod.snd) =
      ps.filter fun q => writeOk q.item := by
  induction ps generalizing store with
  | nil => rfl
  | cons p rest ih =>
    cases hw : writeOk p.item <;>
      simp [createPostsLoop, createPost, hw, ih]

theorem createPostsLoop_ledger (writeOk : Item → Bool) (domainOf : Str → Str)
    (cfg : BotConfig) (ps : List PipelineItem) (store : Store) :
    (createPostsLoop writeOk domainOf cfg ps store).2.ledger = store.ledger := by
  induction ps generalizing store with
  | nil => rfl
  | cons p rest ih =>
    cases hw : writeOk p.item <;>
      simp [createPostsLoop, createPost, hw, ih]

theorem createPostsBatch_map_snd (writeOk : Item → Bool) (domainOf : Str → Str)
    (cfg : BotConfig) (items : List PipelineItem) (maxPosts : Nat)
    (store : Store) :
    ((createPostsBatch writeOk domainOf cfg items maxPosts false store).1.map
        Prod.snd) =
      (items.take maxPosts).filter fun q => writeOk q.item := by
  by_cases h : items = []
  · simp [createPostsBatch, h]
  · simp [createPostsBatch, h, createPostsLoop_map_snd]

theorem createPostsBatch_ledger (writeOk : Item → Bool) (domainOf : Str → Str)
    (cfg : BotConfig) (items : List PipelineItem) (maxPosts : Nat)
    (dryRun : Bool) (store : Store) :
    (createPostsBatch writeOk domainOf cfg items maxPosts dryRun store).2.ledger =
      store.ledger := by
  by_cases h : items = []
  · simp [createPostsBatch, h]
  · cases dryRun <;> simp [createPostsBatch, h, createPostsLoop_ledger]

theorem markItemAsProcessed_ledger_cases (dbErr : Bool) (L : Ledger)
    (botId botU : Str) (item : Item) (postId : Option Nat) :
    (markItemAsProcessed dbErr L botId botU item postId).2 = L ∨
    (markItemAsProcessed dbErr L botId botU item postId).2 =
      L ++ [recordOf botId botU item postId] := by
  simp only [markItemAsProcessed]
  split_ifs <;> simp

theorem markCreatedPosts_ledger_mem (markErr : Item → Bool) (cfg : BotConfig)
    (pairs : List (PostRow × PipelineItem)) (store : Store) (r : LedgerRecord)
    (hmem : r ∈ (markCreatedPosts markErr cfg pairs store).ledger) :
    r ∈ store.ledger ∨ ∃ pr ∈ pairs,
      r = recordOf cfg.id cfg.username pr.2.item (some pr.1.id) := by
  induction pairs generalizing store with
  | nil => exact Or.inl hmem
  | cons pp rest ih =>
    obtain ⟨row, p⟩ := pp
    simp only [markCreatedPosts] at hmem
    rcases ih _ hmem with hin | ⟨pr, hpr, hr⟩
    · rcases markItemAsProcessed_ledger_cases (markErr p.item) store.ledger
        cfg.id cfg.username p.item (some row.id) with hcase | hcase
      · rw [hcase] at hin
        exact Or.inl hin
      · rw [hcase] at hin
        rcases List.mem_append.mp hin with hL | hnew
        · exact Or.inl hL
        · refine Or.inr ⟨(row, p), List.mem_cons_self _ _, ?_⟩
          simpa using List.mem_singleton.mp hnew
    · exact Or.inr ⟨pr, List.mem_cons_of_mem _ hpr, hr⟩

/-! ### Claim C3 -/

/-- C3: a failed post write returns `null` and leaves the store untouched;
the batch skips exactly the failed items and still posts the others (the
created pairs are precisely the capped items whose write succeeded, in
order); the recording loop only ever adds ledger rows for created posts,
so an item whose write failed — and that no successfully posted item
shadows by guid or link — is absent from the ledger after publish and
record, and a subsequent run's dedup filter therefore retains it for a
re-attempt. -/
theorem c3_publish_failure_preserves_item :
    (∀ (cfg : BotConfig) (content : Str) (su sn : Option Str) (oc : Str)
       (asum : Option Str) (store : Store),
      createPost false cfg content su sn oc asum store = (none, store)) ∧
    (∀ (writeOk : Item → Bool) (domainOf : Str → Str) (cfg : BotConfig)
       (items : List PipelineItem) (maxPosts : Nat) (store : Store),
      ((createPostsBatch writeOk domainOf cfg items maxPosts false store).1.map
          Prod.snd) = (items.take maxPosts).filter fun q => writeOk q.item) ∧
    (∀ (writeOk markErr : Item → Bool) (domainOf : Str → Str) (cfg : BotConfig)
       (items : List PipelineItem) (maxPosts : Nat) (store : Store)
       (X : PipelineItem),
      writeOk X.item = false →
      guidMatch store.ledger cfg.id X.item.guid = false →
      linkMatch store.ledger cfg.id X.item.link = false →
      (∀ q ∈ items.take maxPosts, writeOk q.item = true →
        q.item.guid ≠ X.item.guid ∧ q.item.link ≠ X.item.link) →
      ∀ pairs store1, createPostsBatch writeOk domainOf cfg items maxPosts
          false store = (pairs, store1) →
      guidMatch (markCreatedPosts markErr cfg pairs store1).ledger
          cfg.id X.item.guid = false ∧
      linkMatch (markCreatedPosts markErr cfg pairs store1).ledger
          cfg.id X.item.link = false ∧
      isItemProcessed (markCreatedPosts markErr cfg pairs store1).ledger
          cfg.id X.item = false ∧
      ∀ items2, X.item ∈ items2 →
        X.item ∈ filterUnprocessedItems
          (markCreatedPosts markErr cfg pairs store1).ledger cfg.id
          (some items2)) := by
  refine ⟨fun _ _ _ _ _ _ _ => rfl, createPostsBatch_map_snd, ?_⟩
  intro writeOk markErr domainOf cfg items maxPosts store X
    hX hguid hlink hothers pairs store1 hbatch
  have hst1 : store1.ledger = store.ledger := by
    have := createPostsBatch_ledger writeOk domainOf cfg items maxPosts false store
    rw [hbatch] at this
    exact this
  have hpairs : pairs.map Prod.snd = (items.take maxPosts).filter
      fun q => writeOk q.item := by
    have := createPostsBatch_map_snd writeOk domainOf cfg items maxPosts store
    rw [hbatch] at this
    exact this
  have hnew : ∀ r ∈ (markCreatedPosts markErr cfg pairs store1).ledger,
      r.bot_id = cfg.id →
      r.item_guid ≠ X.item.guid ∧ r.item_link ≠ X.item.link := by
    intro r hr _hb
    rcases markCreatedPosts_ledger_mem markErr cfg pairs store1 r hr with
      hin | ⟨pr, hpr, hreq⟩
    · rw [hst1] at hin
      constructor
      · intro hg
        have : guidMatch store.ledger cfg.id X.item.guid = true := by
          simp only [guidMatch, List.any_eq_true, decide_eq_true_eq]
          exact ⟨r, hin, _hb, hg⟩
        rw [this] at hguid
        exact absurd hguid (by simp)
      · intro hl
        have : linkMatch store.ledger cfg.id X.item.link = true := by
          simp only [linkMatch, List.any_eq_true, decide_eq_true_eq]
          exact ⟨r, hin, _hb, hl⟩
        rw [this] at hlink
        exact absurd hlink (by simp)
    · have hsnd : pr.2 ∈ pairs.map Prod.snd := List.mem_map_of_mem Prod.snd hpr
      rw [hpairs] at hsnd
      have hfil := List.mem_filter.mp hsnd
      have hq := hothers pr.2 hfil.1 hfil.2
      rw [hreq]
      exact ⟨by simpa [recordOf] using hq.1, by simpa [recordOf] using hq.2⟩
  have hg2 : guidMatch (markCreatedPosts markErr cfg pairs store1).ledger
      cfg.id X.item.guid = false := by
    rw [Bool.eq_false_iff]
    intro habs
    rw [guidMatch, List.any_eq_true] at habs
    obtain ⟨r, hr, hdec⟩ := habs
    rw [decide_eq_true_eq] at hdec
    exact absurd hdec.2 (hnew r hr hdec.1).1
  have hl2 : linkMatch (markCreatedPosts markErr cfg pairs store1).ledger
      cfg.id X.item.link = false := by
    rw [Bool.eq_false_iff]
    intro habs
    rw [linkMatch, List.any_eq_true] at habs
    obtain ⟨r, hr, hdec⟩ := habs
    rw [decide_eq_true_eq] at hdec
    exact absurd hdec.2 (hnew r hr hdec.1).2
  have hproc : isItemProcessed (markCreatedPosts markErr cfg pairs store1).ledger
      cfg.id X.item = false := by
    simp [isItemProcessed, hg2, hl2]
  refine ⟨hg2, hl2, hproc, ?_⟩
  intro items2 hmem
  simp [filterUnprocessedItems, filterUnprocessedItemsWith, List.mem_filter,
    hmem, hproc]

/-- Items used to witness C3: the first item's write fails, the second's
succeeds. -/
def c3failItem : PipelineItem :=
  { item := ⟨"gx".data, "lx".data, "tx".data, "cx".data, "f".data⟩
    feedTitle := some "F".data, aiSummary := none, originalContent := "cx".data }

def c3okItem : PipelineItem :=
  { item := ⟨"gy".data, "ly".data, "ty".data, "cy".data, "f".data⟩
    feedTitle := some "F".data, aiSummary := none, originalContent := "cy".data }

def c3writeOk (it : Item) : Bool := decide (it.guid = "gy".data)

def c3cfg : BotConfig :=
  ⟨"bot".data, "Bot".data, "bot".data, "u1".data, []⟩

/-- C3, witness: with a two-item batch whose first write fails, the batch
still posts the second item, the failed item stays absent from the ledger
after recording, and the dedup filter of a second run retains it. -/
theorem c3_publish_failure_preserves_item_witness :
    createPost false c3cfg "c".data none none "c".data none
        ⟨[], [], 1⟩ = (none, ⟨[], [], 1⟩) ∧
    ((createPostsBatch c3writeOk (fun _ => "D".data) c3cfg
        [c3failItem, c3okItem] 5 false ⟨[], [], 1⟩).1.map Prod.snd) =
      [c3okItem] ∧
    (∀ pairs store1, createPostsBatch c3writeOk (fun _ => "D".data) c3cfg
        [c3failItem, c3okItem] 5 false ⟨[], [], 1⟩ = (pairs, store1) →
      isItemProcessed (markCreatedPosts (fun _ => false) c3cfg pairs
          store1).ledger c3cfg.id c3failItem.item = false ∧
      c3failItem.item ∈ filterUnprocessedItems
        (markCreatedPosts (fun _ => false) c3cfg pairs store1).ledger
        c3cfg.id (some [c3failItem.item])) := by
  refine ⟨c3_publish_failure_preserves_item.1 c3cfg "c".data none none
    "c".data none ⟨[], [], 1⟩, ?_, ?_⟩
  · rw [c3_publish_failure_preserves_item.2.1 c3writeOk (fun _ => "D".data)
      c3cfg [c3failItem, c3okItem] 5 ⟨[], [], 1⟩]
    decide
  · intro pairs store1 hbatch
    have h := (c3_publish_failure_preserves_item.2.2 c3writeOk (fun _ => false)
      (fun _ => "D".data) c3cfg [c3failItem, c3okItem] 5 ⟨[], [], 1⟩ c3failItem
      (by decide) (by decide) (by decide) (by decide) pairs store1 hbatch)
    exact ⟨h.2.2.1, h.2.2.2 [c3failItem.item] (by simp)⟩

/-! ### Claim C8 -/

theorem collectFeedItems_of_all_processed (L : Ledger) (botId : Str)
    (domainOf : Str → Str) (feeds : List FeedResult)
    (hall : ∀ f ∈ feeds, filterUnprocessedItems L botId (some f.items) = []) :
    (collectFeedItems L botId domainOf feeds).2.2 = [] := by
  induction feeds with
  | nil => rfl
  | cons f rest ih =>
    have hf := hall f (List.mem_cons_self _ _)
    have hrest := ih fun g hg => hall g (List.mem_cons_of_mem _ hg)
    simp [collectFeedItems, hf, hrest]

/-- C8: a run in which dedup filtering leaves zero new items — in either
fetch mode — ends successfully with zero side effects: `runBot` reports
`success = true` and `postsCreated = 0`, and the store (ledger and posts
table alike) is returned unchanged. -/
theorem c8_zero_new_items_no_side_effects :
    (∀ (cfg : BotConfig) (opts : RunOptions) (env : RunEnv) (store : Store)
       (feeds : List FeedResult),
      env.profileExists = true → opts.processFeedsSeparately = true →
      env.fetchSeparate = Except.ok feeds →
      (∀ f ∈ feeds, filterUnprocessedItems store.ledger cfg.id (some f.items) = []) →
      (runBot cfg opts env store).1.success = true ∧
      (runBot cfg opts env store).1.postsCreated = 0 ∧
      (runBot cfg opts env store).2 = store) ∧
    (∀ (cfg : BotConfig) (opts : RunOptions) (env : RunEnv) (store : Store)
       (items : List Item),
      env.profileExists = true → opts.processFeedsSeparately = false →
      env.fetchCombined = Except.ok items →
      filterUnprocessedItems store.ledger cfg.id (some items) = [] →
      (runBot cfg opts env store).1.success = true ∧
      (runBot cfg opts env store).1.postsCreated = 0 ∧
      (runBot cfg opts env store).2 = store) := by
  constructor
  · intro cfg opts env store feeds hprof hsep hfetch hall
    have hcoll := collectFeedItems_of_all_processed store.ledger cfg.id
      env.domainOf feeds hall
    by_cases hf : feeds.isEmpty
    · simp [runBot, hprof, hsep, hfetch, hf]
    · simp [runBot, hprof, hsep, hfetch, hf, hcoll]
  · intro cfg opts env store items hprof hsep hfetch hfil
    by_cases hi : items.isEmpty
    · simp [runBot, hprof, hsep, hfetch, hi]
    · simp [runBot, hprof, hsep, hfetch, hi, hfil]

/-- Fixture for the C8 witness: one feed whose only item is already in the
ledger. -/
def c8item : Item := ⟨"g8".data, "l8".data, "t8".data, "c8".data, "f8".data⟩

def c8cfg : BotConfig := ⟨"b8".data, "B8".data, "b8".data, "u8".data, []⟩

def c8store : Store :=
  ⟨[recordOf "b8".data "b8".data c8item (some 1)], [], 2⟩

def c8env : RunEnv :=
  { profileExists := true
    fetchSeparate := Except.ok [⟨"f8".data, some "F8".data, [c8item]⟩]
    fetchCombined := Except.ok []
    domainOf := fun _ => "D".data
    writeOk := fun _ => true
    markErr := fun _ => false
    elapsed := 7 }

/-- C8, witness: a run whose single fetched item is already recorded in
the ledger succeeds with zero posts and leaves the store untouched. -/
theorem c8_zero_new_items_no_side_effects_witness :
    (runBot c8cfg ⟨60, 5, 2, true, false⟩ c8env c8store).1.success = true ∧
    (runBot c8cfg ⟨60, 5, 2, true, false⟩ c8env c8store).1.postsCreated = 0 ∧
    (runBot c8cfg ⟨60, 5, 2, true, false⟩ c8env c8store).2 = c8store :=
  c8_zero_new_items_no_side_effects.1 c8cfg ⟨60, 5, 2, true, false⟩ c8env c8store
    [⟨"f8".data, some "F8".data, [c8item]⟩] rfl rfl rfl (by decide)

/-! ### Claim C9 -/

theorem runBot_result_fields (cfg : BotConfig) (opts : RunOptions)
    (env : RunEnv) (store : Store) :
    (runBot cfg opts env store).1.botId = cfg.id ∧
    (runBot cfg opts env store).1.botName = cfg.name ∧
    (runBot cfg opts env store).1.duration = env.elapsed ∧
    (runBot cfg opts env store).1.itemsSummarized = 0 := by
  cases hp : env.profileExists with
  | false => simp [runBot, hp]
  | true =>
    cases hs : opts.processFeedsSeparately with
    | true =>
      cases hfetch : env.fetchSeparate with
      | error e => simp [runBot, hp, hs, hfetch]
      | ok feeds =>
        cases hfe : feeds.isEmpty with
        | true => simp [runBot, hp, hs, hfetch, hfe]
        | false =>
          cases hcoll : (collectFeedItems store.ledger cfg.id env.domainOf
              feeds).2.2.isEmpty with
          | true => simp [runBot, hp, hs, hfetch, hfe, hcoll]
          | false => simp [runBot, runBotTail, hp, hs, hfetch, hfe, hcoll]
    | false =>
      cases hfetch : env.fetchCombined with
      | error e => simp [runBot, hp, hs, hfetch]
      | ok items =>
        cases hie : items.isEmpty with
        | true => simp [runBot, hp, hs, hfetch, hie]
        | false =>
          cases hne : (filterUnprocessedItems store.ledger cfg.id
              (some items)).isEmpty with
          | true => simp [runBot, hp, hs, hfetch, hie, hne]
          | false => simp [runBot, runBotTail, hp, hs, hfetch, hie, hne]

/-- C9: `runBot` is a total function into the structured results object —
identifying fields, the duration and the (disabled) summary counter are
populated on every control path, so no exception escapes the orchestrator
boundary; when the profile check fails or the fetch step throws, the
thrown message becomes the run's error list and the run is marked failed;
and `runMultipleBots` always yields exactly one result per configured
bot, in order, whatever each run's outcome. -/
theorem c9_runBot_total_and_structured :
    (∀ (cfg : BotConfig) (opts : RunOptions) (env : RunEnv) (store : Store),
      (runBot cfg opts env store).1.botId = cfg.id ∧
      (runBot cfg opts env store).1.botName = cfg.name ∧
      (runBot cfg opts env store).1.duration = env.elapsed ∧
      (runBot cfg opts env store).1.itemsSummarized = 0) ∧
    (∀ (cfg : BotConfig) (opts : RunOptions) (env : RunEnv) (store : Store),
      env.profileExists = false →
      (runBot cfg opts env store).1.success = false ∧
      (runBot cfg opts env store).1.errors = [profileNotFoundMsg cfg] ∧
      (runBot cfg opts env store).2 = store) ∧
    (∀ (cfg : BotConfig) (opts : RunOptions) (env : RunEnv) (store : Store)
       (e : Str),
      env.profileExists = true → opts.processFeedsSeparately = true →
      env.fetchSeparate = Except.error e →
      (runBot cfg opts env store).1.success = false ∧
      (runBot cfg opts env store).1.errors = [e]) ∧
    (∀ (cfg : BotConfig) (opts : RunOptions) (env : RunEnv) (store : Store)
       (e : Str),
      env.profileExists = true → opts.processFeedsSeparately = false →
      env.fetchCombined = Except.error e →
      (runBot cfg opts env store).1.success = false ∧
      (runBot cfg opts env store).1.errors = [e]) ∧
    (∀ (envf : BotConfig → RunEnv) (configs : List BotConfig)
       (opts : RunOptions) (store : Store),
      ((runMultipleBots envf configs opts store).1.map fun r => r.botId) =
        configs.map fun c => c.id) := by
  refine ⟨runBot_result_fields, ?_, ?_, ?_, ?_⟩
  · intro cfg opts env store hp
    simp [runBot, hp]
  · intro cfg opts env store e hp hsep hfetch
    simp [runBot, hp, hsep, hfetch]
  · intro cfg opts env store e hp hsep hfetch
    simp [runBot, hp, hsep, hfetch]
  · intro envf configs opts store
    induction configs generalizing store with
    | nil => rfl
    | cons cfg rest ih =>
      have hbot := (runBot_result_fields cfg opts (envf cfg) store).1
      simp [runMultipleBots, ih, hbot]

/-- C9, witness: a missing profile and a throwing fetch are both recorded
as failed runs with the thrown message, and a two-bot batch yields two
results. -/
theorem c9_runBot_total_and_structured_witness :
    (runBot c8cfg ⟨60, 5, 2, true, false⟩
        { c8env with profileExists := false } c8store).1.success = false ∧
    (runBot c8cfg ⟨60, 5, 2, true, false⟩
        { c8env with fetchSeparate := Except.error "network down".data }
        c8store).1.errors = ["network down".data] ∧
    ((runMultipleBots (fun _ => c8env) [c8cfg, c3cfg] ⟨60, 5, 2, true, false⟩
        c8store).1.map fun r => r.botId) = ["b8".data, "bot".data] := by
  refine ⟨?_, ?_, ?_⟩
  · exact (c9_runBot_total_and_structured.2.1 c8cfg ⟨60, 5, 2, true, false⟩
      { c8env with profileExists := false } c8store rfl).1
  · exact (c9_runBot_total_and_structured.2.2.1 c8cfg ⟨60, 5, 2, true, false⟩
      { c8env with fetchSeparate := Except.error "network down".data } c8store
      "network down".data rfl rfl rfl).2
  · exact c9_runBot_total_and_structured.2.2.2.2 (fun _ => c8env)
      [c8cfg, c3cfg] ⟨60, 5, 2, true, false⟩ c8store

/-! ### Claim C1 -/

/-- An item of the C1 fixture, named by its guid and link. -/
def mkC1Item (g l : String) : Item :=
  ⟨g.data, l.data, g.data, g.data, "http://feed".data⟩

/-- The C1 fixture: three sources returning 5, 5 and 1 new qualifying
items against an empty ledger. -/
def c1feeds : List FeedResult :=
  [⟨"http://feedA".data, some "A".data,
     [mkC1Item "a1" "la1", mkC1Item "a2" "la2", mkC1Item "a3" "la3",
      mkC1Item "a4" "la4", mkC1Item "a5" "la5"]⟩,
   ⟨"http://feedB".data, some "B".data,
     [mkC1Item "b1" "lb1", mkC1Item "b2" "lb2", mkC1Item "b3" "lb3",
      mkC1Item "b4" "lb4", mkC1Item "b5" "lb5"]⟩,
   ⟨"http://feedC".data, some "C".data, [mkC1Item "c1" "lc1"]⟩]

def c1cfg : BotConfig := ⟨"b1".data, "B1".data, "b1".data, "u1".data, []⟩

/-- Per-source mode with a per-source cap of 2 and an overall cap of 5,
exactly the options of the claim's scenario. -/
def c1opts : RunOptions := ⟨60, 5, 2, true, false⟩

def c1env : RunEnv :=
  { profileExists := true
    fetchSeparate := Except.ok c1feeds
    fetchCombined := Except.ok []
    domainOf := fun _ => "D".data
    writeOk := fun _ => true
    markErr := fun _ => false
    elapsed := 0 }

def c1store : Store := ⟨[], [], 1⟩

set_option maxRecDepth 4000 in
/-- C1: evaluating `runBot` on the claim's scenario — three sources with
5, 5 and 1 new qualifying items, `maxPostsPerFeed = 2`,
`maxPostsPerRun = 5`, per-source mode — shows the per-source cap is never
applied: all 11 new items reach the publishing step and the 5 created
posts are the first feed's 5 items (`la1` … `la5`), not the 2 + 2 + 1
selection the claim (and the repository's own documentation) describes. -/
theorem c1_per_source_cap_not_applied :
    (runBot c1cfg c1opts c1env c1store).1.itemsNew = 11 ∧
    (runBot c1cfg c1opts c1env c1store).1.postsCreated = 5 ∧
    ((runBot c1cfg c1opts c1env c1store).2.posts.map fun p =>
        p.rss_source_url) =
      [some "la1".data, some "la2".data, some "la3".data,
       some "la4".data, some "la5".data] := by
  refine ⟨by decide, by decide, by decide⟩

end Zeno
